import Mathlib

/-!
Shallow embedding of `libavcodec/libmp3lame.c` (the libmp3lame encoder
adapter) and verification of its specification.

The adapter delegates the actual MP3 encoding to the external LAME library
and the frame-header decoding to `avpriv_mpegaudio_decode_header`; neither
collaborator is part of this repository's source, so both are modelled as
oracle parameters (arbitrary functions), constrained only by the
collaborator preconditions the spec states.  The adapter's own state and
control flow — the fixed-capacity holding buffer, its write offset, the
header-driven frame extraction — are translated directly from the C source.
-/

/-- Modelled from the spec: `MPA_FRAME_SIZE` comes from `mpegaudio.h`, which is
not under `src/`.  It is the number of samples per MPEG audio layer-3 frame,
1152, used only to size the holding buffer. -/
def MPA_FRAME_SIZE : Nat := 1152

/-- BUFFER_SIZE, line 35 of libmp3lame.c: capacity of the holding buffer. -/
def BUFFER_SIZE : Nat := 7200 + 2 * MPA_FRAME_SIZE + MPA_FRAME_SIZE / 4

/-- Mp3AudioContext, lines 36-42: the adapter's mutable state.  `buffer` models
the `uint8_t buffer[BUFFER_SIZE]` array (a fixed-length byte list), and
`buffer_index` the write offset: the number of valid bytes awaiting
extraction.  The `AVClass`, `gfp` handle and `reservoir` option fields do not
participate in the encode step and are carried separately. -/
structure Mp3AudioContext where
  buffer : List Nat
  buffer_index : Nat
deriving DecidableEq, Repr

/-- Well-formedness of the adapter state: the byte array has its declared
fixed length, and the write offset is within capacity (the spec's invariant
`0 ≤ writeOffset ≤ capacity`; the lower bound is inherent to `Nat`). -/
def Mp3AudioContext.WF (s : Mp3AudioContext) : Prop :=
  s.buffer.length = BUFFER_SIZE ∧ s.buffer_index ≤ BUFFER_SIZE

/-- Modelled from the spec: the surrounding framework allocates `priv_data`
zero-initialized before calling init (the allocation is not under `src/`), so
the session starts with an all-zero holding buffer and write offset 0. -/
def initialState : Mp3AudioContext :=
  ⟨List.replicate BUFFER_SIZE 0, 0⟩

/-- Result of one call into an external LAME encode/flush entry point: the
`int` return value, and the bytes the call wrote into the output area it was
handed (`s->buffer + s->buffer_index`). -/
structure ExtResult where
  result : Int
  out : List Nat
deriving DecidableEq, Repr

/-- Collaborator precondition on an external encode/flush call handed `cap`
bytes of output space: it writes at most `cap` bytes, and a non-negative
return value is exactly the number of bytes written. -/
def ExtResult.Spec (er : ExtResult) (cap : Nat) : Prop :=
  er.out.length ≤ cap ∧ (0 ≤ er.result → er.result = (er.out.length : Int))

instance (er : ExtResult) (cap : Nat) : Decidable (er.Spec cap) :=
  inferInstanceAs (Decidable (_ ∧ _))

/-- Environment of the encode step: the relevant `AVCodecContext` fields and
the external collaborators.  The three LAME entry points are oracles taking
the arguments the C code passes (with the output pointer replaced by the
remaining capacity they are handed); `decode_header` models
`avpriv_mpegaudio_decode_header` per the spec: given the 32-bit big-endian
header word it returns the frame size in bytes, or `none` on rejection
(invalid or free-format headers). -/
structure EncodeEnv where
  channels : Nat
  frame_size : Int
  lame_encode_buffer_interleaved : List Int → Int → Nat → ExtResult
  lame_encode_buffer : List Int → List Int → Int → Nat → ExtResult
  lame_encode_flush : Nat → ExtResult
  decode_header : Nat → Option Nat

/-- Byte-array write at an offset: the result of the external call writing
`out` starting at position `i` of `buf` (positions before `i` and at or past
`i + out.length` keep their old contents). -/
def writeAt (buf : List Nat) (i : Nat) (out : List Nat) : List Nat :=
  buf.take i ++ out ++ buf.drop (i + out.length)

/-- AV_RB32 from `libavutil/intreadwrite.h` (not under `src/`): big-endian
32-bit read of the first four bytes of the buffer. -/
def AV_RB32 (buf : List Nat) : Nat :=
  buf.headD 0 * 2 ^ 24 + (buf.drop 1).headD 0 * 2 ^ 16 +
    (buf.drop 2).headD 0 * 2 ^ 8 + (buf.drop 3).headD 0

/-- The error outcomes of the encode step.  In C every error path returns
`-1`; the paths are distinguished by the diagnostic they emit:
`OutputBufferTooSmall` carries the write offset and remaining capacity that
lines 131-133 log for `lame_result == -1`, `UnsupportedFrameFormat` is the
free-format rejection of lines 143-146, and `EncodeFailure` is the plain
`return -1` for any other negative LAME result. -/
inductive EncodeError where
  | OutputBufferTooSmall (writeOffset remaining : Nat)
  | EncodeFailure
  | UnsupportedFrameFormat
deriving DecidableEq, Repr

/-- Outcome of one encode call: an error (C return `-1`), no frame produced
yet (C return `0`), or a produced frame (the bytes `memcpy`ed into the
caller's output buffer; C returns their count). -/
inductive EncodeOutcome where
  | err (e : EncodeError)
  | noFrame
  | frame (bytes : List Nat)
deriving DecidableEq, Repr

/-- The `int` value the C function returns for each outcome. -/
def EncodeOutcome.retVal : EncodeOutcome → Int
  | .err _ => -1
  | .noFrame => 0
  | .frame bytes => (bytes.length : Int)

/-- Lines 112-127 of `MP3lame_encode_frame`: select and invoke the external
entry point.  With sample data present, stereo input goes to
`lame_encode_buffer_interleaved` and mono input to `lame_encode_buffer` (the
same sample list passed as both channel arguments); with no data (flush),
`lame_encode_flush`.  Every call is handed the remaining capacity
`BUFFER_SIZE - s->buffer_index`. -/
def lame_call (env : EncodeEnv) (s : Mp3AudioContext)
    (data : Option (List Int)) : ExtResult :=
  match data with
  | some pcm =>
    if env.channels > 1 then
      env.lame_encode_buffer_interleaved pcm env.frame_size
        (BUFFER_SIZE - s.buffer_index)
    else
      env.lame_encode_buffer pcm pcm env.frame_size
        (BUFFER_SIZE - s.buffer_index)
  | none => env.lame_encode_flush (BUFFER_SIZE - s.buffer_index)

/-- MP3lame_encode_frame, lines 104-158.  `buf_size` is the declared capacity
of the caller's output buffer; the C function never reads it.  The external
call writes its bytes at the current write offset; a negative result returns
`-1` (distinguishing `-1` from other codes in the diagnostic) without
advancing the offset; otherwise the offset advances by the result.  With
fewer than 4 buffered bytes the call reports no frame; otherwise the frame
header at the front is decoded, rejection is an error, and a declared frame
length within the buffered bytes is copied out and the remainder shifted to
the front (`memcpy`/`memmove` of lines 151-154). -/
def MP3lame_encode_frame (env : EncodeEnv) (s : Mp3AudioContext)
    (data : Option (List Int)) (buf_size : Int) :
    EncodeOutcome × Mp3AudioContext :=
  let er := lame_call env s data
  let sw : Mp3AudioContext :=
    ⟨writeAt s.buffer s.buffer_index er.out, s.buffer_index⟩
  if er.result < 0 then
    if er.result = -1 then
      (EncodeOutcome.err
        (EncodeError.OutputBufferTooSmall s.buffer_index
          (BUFFER_SIZE - s.buffer_index)), sw)
    else
      (EncodeOutcome.err EncodeError.EncodeFailure, sw)
  else
    let s1 : Mp3AudioContext := ⟨sw.buffer, s.buffer_index + er.result.toNat⟩
    if s1.buffer_index < 4 then
      (EncodeOutcome.noFrame, s1)
    else
      match env.decode_header (AV_RB32 s1.buffer) with
      | none => (EncodeOutcome.err EncodeError.UnsupportedFrameFormat, s1)
      | some len =>
        if len ≤ s1.buffer_index then
          (EncodeOutcome.frame (s1.buffer.take len),
           ⟨(s1.buffer.drop len).take (s1.buffer_index - len) ++
              s1.buffer.drop (s1.buffer_index - len),
            s1.buffer_index - len⟩)
        else
          (EncodeOutcome.noFrame, s1)

/-- LAME stereo-mode constants used by the adapter (from `lame.h`, an
external header). -/
inductive MpegMode where
  | JOINT_STEREO
  | MONO
deriving DecidableEq, Repr

/-- LAME VBR-mode constants used by the adapter (from `lame.h`). -/
inductive VbrMode where
  | vbr_off
  | vbr_default
deriving DecidableEq, Repr

/-- Modelled from the spec: the configuration state of the external LAME
handle (`lame_global_flags`, opaque and not under `src/`), recording the
values the adapter's setter calls store.  Only the fields the adapter sets
are modelled.  `vbr_quality` is computed by C in `float`; it is modelled
exactly over `ℚ`, as no claim depends on its rounding. -/
structure LameFlags where
  in_samplerate : Int
  out_samplerate : Int
  num_channels : Nat
  quality : Int
  mode : MpegMode
  brate : Int
  vbr : VbrMode
  vbr_quality : Rat
  bWriteVbrTag : Int
  disable_reservoir : Int
deriving DecidableEq, Repr

/-- The `AVCodecContext` fields the init path reads. -/
structure AVCodecParams where
  channels : Nat
  sample_rate : Int
  compression_level : Int
  bit_rate : Int
  flags : Nat
  global_quality : Int
deriving DecidableEq, Repr

/-- FF_COMPRESSION_DEFAULT from `avcodec.h`. -/
def FF_COMPRESSION_DEFAULT : Int := -1

/-- CODEC_FLAG_QSCALE from `avcodec.h`: the bit in `AVCodecContext.flags`
requesting quality-scale (global-quality) encoding. -/
def CODEC_FLAG_QSCALE : Nat := 2

/-- FF_QP2LAMBDA from `libavutil/avutil.h`: the fixed quantization constant
the quality scale is divided by. -/
def FF_QP2LAMBDA : Int := 118

/-- AVERROR(EINVAL): the error code for an invalid argument. -/
def AVERROR_EINVAL : Int := -22

/-- AVERROR(ENOMEM): the error code for an allocation failure. -/
def AVERROR_ENOMEM : Int := -12

/-- Lines 65-81 of `MP3lame_encode_init`: the sequence of LAME setter calls,
applied to the freshly created handle state `gfp0`.  Sample rates and channel
count are copied through; a sentinel default compression level selects
quality 5, otherwise the level passes through; more than one channel selects
joint stereo, else mono; the bitrate (in kbit/s, C integer division) is set
and, when the QSCALE flag is on, overridden to 0 with VBR enabled and the
VBR quality derived from `global_quality / FF_QP2LAMBDA`; VBR-tag writing is
disabled and the reservoir flag applied (C `!s->reservoir`). -/
def lame_configure (gfp0 : LameFlags) (avctx : AVCodecParams)
    (reservoir : Int) : LameFlags :=
  let g1 := { gfp0 with
    in_samplerate := avctx.sample_rate
    out_samplerate := avctx.sample_rate
    num_channels := avctx.channels
    quality := if avctx.compression_level = FF_COMPRESSION_DEFAULT then 5
      else avctx.compression_level
    mode := if avctx.channels > 1 then MpegMode.JOINT_STEREO else MpegMode.MONO
    brate := avctx.bit_rate.tdiv 1000 }
  let g2 :=
    if avctx.flags &&& CODEC_FLAG_QSCALE ≠ 0 then
      { g1 with
        brate := 0
        vbr := VbrMode.vbr_default
        vbr_quality := (avctx.global_quality : Rat) / (FF_QP2LAMBDA : Rat) }
    else g1
  { g2 with
    bWriteVbrTag := 0
    disable_reservoir := if reservoir = 0 then 1 else 0 }

/-- The init failure causes named by the spec. -/
inductive InitError where
  | UnsupportedChannelLayout
  | AllocationFailure
  | ConfigurationRejected
deriving DecidableEq, Repr

/-- Observable outcome of `MP3lame_encode_init`: the returned code, the
failure cause when there is one, the final configuration of the external
handle when one was created, whether `lame_init` was called successfully
(`handleCreated`) and whether `lame_close` released the handle before
returning (`handleReleased`, via the `goto error` path through
`MP3lame_encode_close`), the frame size stored into the context, and whether
a coded-frame holder is allocated on return. -/
structure InitOutcome where
  ret : Int
  err : Option InitError
  gfp : Option LameFlags
  handleCreated : Bool
  handleReleased : Bool
  frameSize : Option Int
  codedFrame : Bool
deriving DecidableEq, Repr

/-- MP3lame_encode_init, lines 55-98.  External collaborators are oracles:
`lame_init` either fails (`none`, C NULL) or yields the library's default
flag state; `lame_init_params` is the parameter-finalization result;
`lame_get_framesize` queries the input block size; `codedFrameOk` models
whether `avcodec_alloc_frame` succeeds.  More than two channels fails before
any handle is created; a `lame_init` failure returns ENOMEM; a negative
finalization result takes the `goto error` path (close the handle, return
-1); an allocation failure after the frame size was stored also closes the
handle and returns ENOMEM. -/
def MP3lame_encode_init (avctx : AVCodecParams) (reservoir : Int)
    (lame_init : Option LameFlags) (lame_init_params : LameFlags → Int)
    (lame_get_framesize : LameFlags → Int) (codedFrameOk : Bool) :
    InitOutcome :=
  if avctx.channels > 2 then
    ⟨AVERROR_EINVAL, some InitError.UnsupportedChannelLayout, none,
      false, false, none, false⟩
  else
    match lame_init with
    | none =>
      ⟨AVERROR_ENOMEM, some InitError.AllocationFailure, none,
        false, false, none, false⟩
    | some gfp0 =>
      let gfp := lame_configure gfp0 avctx reservoir
      if lame_init_params gfp < 0 then
        ⟨-1, some InitError.ConfigurationRejected, some gfp,
          true, true, none, false⟩
      else
        let fs := lame_get_framesize gfp
        if codedFrameOk then
          ⟨0, none, some gfp, true, false, some fs, true⟩
        else
          ⟨AVERROR_ENOMEM, some InitError.AllocationFailure, some gfp,
            true, true, some fs, false⟩

theorem writeAt_length (buf : List Nat) (i : Nat) (out : List Nat)
    (h : i + out.length ≤ buf.length) :
    (writeAt buf i out).length = buf.length := by
  simp only [writeAt, List.length_append, List.length_take, List.length_drop]
  omega

theorem writeAt_take_front (buf : List Nat) (i : Nat) (out : List Nat)
    (h : i ≤ buf.length) :
    (writeAt buf i out).take i = buf.take i := by
  rw [writeAt, List.append_assoc]
  exact List.take_left' (by rw [List.length_take]; omega)

/-- C3: the holding-buffer invariant `0 ≤ writeOffset ≤ capacity` (together
with the fixed array length) holds in the initial state and is preserved by
every encode call — data and flush cases alike, since both route through the
same buffer bookkeeping — under the collaborator precondition that the
external call writes at most the remaining capacity it is handed and returns
the number of bytes written. -/
theorem C3_buffer_invariant (env : EncodeEnv) (s : Mp3AudioContext)
    (data : Option (List Int)) (buf_size : Int)
    (hWF : s.WF)
    (hext : (lame_call env s data).Spec (BUFFER_SIZE - s.buffer_index)) :
    initialState.WF ∧ ((MP3lame_encode_frame env s data buf_size).2).WF := by
  obtain ⟨hlen, hidx⟩ := hWF
  obtain ⟨hout, hres⟩ := hext
  refine ⟨⟨by simp [initialState], by simp [initialState]⟩, ?_⟩
  have hwlen : (writeAt s.buffer s.buffer_index (lame_call env s data).out).length
      = BUFFER_SIZE := by
    rw [writeAt_length _ _ _ (by omega)]; exact hlen
  simp only [MP3lame_encode_frame]
  split
  · split
    · exact ⟨hwlen, hidx⟩
    · exact ⟨hwlen, hidx⟩
  · rename_i hnneg
    have htn : (lame_call env s data).result.toNat =
        (lame_call env s data).out.length := by
      have := hres (by omega)
      omega
    split
    · exact ⟨hwlen, by dsimp only; omega⟩
    · split
      · exact ⟨hwlen, by dsimp only; omega⟩
      · rename_i len _
        split
        · rename_i hle
          constructor
          · dsimp only
            simp only [List.length_append, List.length_take, List.length_drop,
              hwlen]
            omega
          · dsimp only
            omega
        · exact ⟨hwlen, by dsimp only; omega⟩

/-- C4: when the external call succeeds (non-negative result) and fewer than
4 bytes are buffered afterwards, the encode call reports no frame produced
yet (C return value 0) and never an error. -/
theorem C4_under_four_bytes_no_error (env : EncodeEnv) (s : Mp3AudioContext)
    (data : Option (List Int)) (buf_size : Int)
    (hres : 0 ≤ (lame_call env s data).result)
    (hlt : s.buffer_index + (lame_call env s data).result.toNat < 4) :
    (MP3lame_encode_frame env s data buf_size).1 = EncodeOutcome.noFrame ∧
    ((MP3lame_encode_frame env s data buf_size).1).retVal = 0 := by
  simp only [MP3lame_encode_frame]
  rw [if_neg (by omega), if_pos hlt]
  exact ⟨rfl, rfl⟩

/-- C7: a negative external result of exactly -1 (the LAME code for
insufficient output space) is reported as `OutputBufferTooSmall` carrying the
current write offset and the remaining capacity, while any other negative
result is reported as the distinct `EncodeFailure`; the two error values are
distinguishable. -/
theorem C7_negative_results_distinguished (env : EncodeEnv)
    (s : Mp3AudioContext) (data : Option (List Int)) (buf_size : Int)
    (hneg : (lame_call env s data).result < 0) :
    ((lame_call env s data).result = -1 →
      (MP3lame_encode_frame env s data buf_size).1 =
        EncodeOutcome.err (EncodeError.OutputBufferTooSmall s.buffer_index
          (BUFFER_SIZE - s.buffer_index))) ∧
    ((lame_call env s data).result ≠ -1 →
      (MP3lame_encode_frame env s data buf_size).1 =
        EncodeOutcome.err EncodeError.EncodeFailure) ∧
    EncodeOutcome.err (EncodeError.OutputBufferTooSmall s.buffer_index
        (BUFFER_SIZE - s.buffer_index)) ≠
      EncodeOutcome.err EncodeError.EncodeFailure := by
  refine ⟨?_, ?_, by simp⟩
  · intro h1
    simp only [MP3lame_encode_frame]
    rw [if_pos hneg, if_pos h1]
  · intro h1
    simp only [MP3lame_encode_frame]
    rw [if_pos hneg, if_neg h1]

/-- C9: a failed external call is atomic for the adapter: when the external
result is negative, the call returns the error value -1, the write offset is
not advanced, and the valid holding-buffer contents (the bytes below the
write offset) are unchanged. -/
theorem C9_error_leaves_state_unchanged (env : EncodeEnv)
    (s : Mp3AudioContext) (data : Option (List Int)) (buf_size : Int)
    (hWF : s.WF) (hneg : (lame_call env s data).result < 0) :
    (MP3lame_encode_frame env s data buf_size).2.buffer_index =
      s.buffer_index ∧
    (MP3lame_encode_frame env s data buf_size).2.buffer.take s.buffer_index =
      s.buffer.take s.buffer_index ∧
    ((MP3lame_encode_frame env s data buf_size).1).retVal = -1 := by
  obtain ⟨hlen, hidx⟩ := hWF
  have hfront := writeAt_take_front s.buffer s.buffer_index
    (lame_call env s data).out (by omega)
  simp only [MP3lame_encode_frame]
  rw [if_pos hneg]
  split
  · exact ⟨rfl, hfront, rfl⟩
  · exact ⟨rfl, hfront, rfl⟩

/-- C10: the encode step never reads the declared output capacity
`buf_size`: its outcome (including the bytes written to the caller's output
frame) and the resulting adapter state are identical for any two values of
that parameter, so an extracted frame of length L is written in full even
when L exceeds the declared capacity. -/
theorem C10_buf_size_never_read (env : EncodeEnv) (s : Mp3AudioContext)
    (data : Option (List Int)) (buf_size1 buf_size2 : Int) :
    MP3lame_encode_frame env s data buf_size1 =
      MP3lame_encode_frame env s data buf_size2 := rfl

/-- C1: a frame is extracted and returned only when the declared frame
length decoded from the header at the front of the holding buffer is at most
the number of buffered bytes; when fewer bytes are buffered than the
declared length, the call returns no frame (0 bytes), and a returned frame's
reported length equals the declared length and never exceeds the bytes
available at extraction time. -/
theorem C1_frame_within_available (env : EncodeEnv) (s : Mp3AudioContext)
    (data : Option (List Int)) (buf_size : Int) (len : Nat)
    (hWF : s.WF)
    (hext : (lame_call env s data).Spec (BUFFER_SIZE - s.buffer_index))
    (hres : 0 ≤ (lame_call env s data).result)
    (hhdr : env.decode_header (AV_RB32
      (writeAt s.buffer s.buffer_index (lame_call env s data).out)) =
      some len)
    (h4 : 4 ≤ s.buffer_index + (lame_call env s data).result.toNat) :
    (s.buffer_index + (lame_call env s data).result.toNat < len →
      (MP3lame_encode_frame env s data buf_size).1 =
        EncodeOutcome.noFrame) ∧
    (len ≤ s.buffer_index + (lame_call env s data).result.toNat →
      (MP3lame_encode_frame env s data buf_size).1 =
        EncodeOutcome.frame ((writeAt s.buffer s.buffer_index
          (lame_call env s data).out).take len) ∧
      ((writeAt s.buffer s.buffer_index
          (lame_call env s data).out).take len).length = len) := by
  obtain ⟨hlen, hidx⟩ := hWF
  obtain ⟨hout, hres'⟩ := hext
  have hwlen : (writeAt s.buffer s.buffer_index
      (lame_call env s data).out).length = BUFFER_SIZE := by
    rw [writeAt_length _ _ _ (by omega)]; exact hlen
  have htn : (lame_call env s data).result.toNat =
      (lame_call env s data).out.length := by
    have := hres' hres; omega
  simp only [MP3lame_encode_frame]
  rw [if_neg (by omega), if_neg (by omega), hhdr]
  dsimp only
  constructor
  · intro hlt
    rw [if_neg (by omega)]
  · intro hle
    rw [if_pos hle]
    refine ⟨rfl, ?_⟩
    rw [List.length_take]
    omega

/-- C2: a successful extraction of a frame of length L returns exactly the
first L bytes of the valid holding-buffer contents, leaves as new valid
contents the previous valid contents with those L bytes removed (the
remainder shifted to the front), and decreases the write offset by exactly
L. -/
theorem C2_extraction_removes_consumed_bytes (env : EncodeEnv)
    (s : Mp3AudioContext) (data : Option (List Int)) (buf_size : Int)
    (len : Nat)
    (hWF : s.WF)
    (hext : (lame_call env s data).Spec (BUFFER_SIZE - s.buffer_index))
    (hres : 0 ≤ (lame_call env s data).result)
    (hhdr : env.decode_header (AV_RB32
      (writeAt s.buffer s.buffer_index (lame_call env s data).out)) =
      some len)
    (h4 : 4 ≤ s.buffer_index + (lame_call env s data).result.toNat)
    (hle : len ≤ s.buffer_index + (lame_call env s data).result.toNat) :
    (MP3lame_encode_frame env s data buf_size).1 =
      EncodeOutcome.frame (((writeAt s.buffer s.buffer_index
        (lame_call env s data).out).take
        (s.buffer_index + (lame_call env s data).result.toNat)).take len) ∧
    (MP3lame_encode_frame env s data buf_size).2.buffer.take
        ((MP3lame_encode_frame env s data buf_size).2.buffer_index) =
      ((writeAt s.buffer s.buffer_index
        (lame_call env s data).out).take
        (s.buffer_index + (lame_call env s data).result.toNat)).drop len ∧
    (MP3lame_encode_frame env s data buf_size).2.buffer_index + len =
      s.buffer_index + (lame_call env s data).result.toNat := by
  obtain ⟨hlen, hidx⟩ := hWF
  obtain ⟨hout, hres'⟩ := hext
  have hwlen : (writeAt s.buffer s.buffer_index
      (lame_call env s data).out).length = BUFFER_SIZE := by
    rw [writeAt_length _ _ _ (by omega)]; exact hlen
  have htn : (lame_call env s data).result.toNat =
      (lame_call env s data).out.length := by
    have := hres' hres; omega
  simp only [MP3lame_encode_frame]
  rw [if_neg (by omega), if_neg (by omega), hhdr]
  dsimp only
  rw [if_pos hle]
  refine ⟨?_, ?_, ?_⟩
  · rw [List.take_take, Nat.min_eq_left hle]
  · dsimp only
    rw [List.take_left' (by rw [List.length_take, List.length_drop]; omega),
      List.take_drop]
    have harith : len + (s.buffer_index +
        (lame_call env s data).result.toNat - len) =
        s.buffer_index + (lame_call env s data).result.toNat := by omega
    rw [harith]
  · dsimp only
    omega

/-- C5: a channel count greater than 2 makes init fail with
`UnsupportedChannelLayout` (C return `AVERROR(EINVAL)`) before any external
encoder handle is created. -/
theorem C5_too_many_channels_rejected (avctx : AVCodecParams)
    (reservoir : Int) (li : Option LameFlags)
    (lip lgf : LameFlags → Int) (ok : Bool)
    (hch : avctx.channels > 2) :
    (MP3lame_encode_init avctx reservoir li lip lgf ok).ret =
      AVERROR_EINVAL ∧
    (MP3lame_encode_init avctx reservoir li lip lgf ok).err =
      some InitError.UnsupportedChannelLayout ∧
    (MP3lame_encode_init avctx reservoir li lip lgf ok).handleCreated =
      false := by
  unfold MP3lame_encode_init
  rw [if_pos hch]
  exact ⟨rfl, rfl, rfl⟩

/-- C6: on every init failure path reached after the external handle was
created — parameter finalization rejected, or coded-frame allocation failed —
the handle is released before the error is returned, so no handle leaks on a
partial init failure. -/
theorem C6_no_handle_leak_on_init_failure (avctx : AVCodecParams)
    (reservoir : Int) (li : Option LameFlags)
    (lip lgf : LameFlags → Int) (ok : Bool)
    (hcre : (MP3lame_encode_init avctx reservoir li lip lgf ok).handleCreated
      = true)
    (herr : ((MP3lame_encode_init avctx reservoir li lip lgf ok).err).isSome
      = true) :
    (MP3lame_encode_init avctx reservoir li lip lgf ok).handleReleased =
      true := by
  unfold MP3lame_encode_init at hcre herr ⊢
  by_cases h1 : avctx.channels > 2
  · rw [if_pos h1] at hcre
    exact absurd hcre (by simp)
  · rw [if_neg h1] at hcre herr ⊢
    cases li with
    | none => exact absurd hcre (by simp)
    | some gfp0 =>
      dsimp only at hcre herr ⊢
      by_cases h2 : lip (lame_configure gfp0 avctx reservoir) < 0
      · rw [if_pos h2]
      · rw [if_neg h2] at herr ⊢
        cases ok with
        | true => exact absurd herr (by simp)
        | false => rfl

/-- C8: when the quality-scale (QSCALE) flag is set, the configuration
passed to the external library has its bitrate setting overridden to the
unset value 0 and variable-bitrate mode enabled, regardless of the bitrate
configured in the context; init stores exactly that configuration into the
handle it creates. -/
theorem C8_qscale_overrides_bitrate (avctx : AVCodecParams)
    (reservoir : Int) (gfp0 : LameFlags) (lip lgf : LameFlags → Int)
    (ok : Bool)
    (hch : ¬avctx.channels > 2)
    (hq : avctx.flags &&& CODEC_FLAG_QSCALE ≠ 0) :
    (MP3lame_encode_init avctx reservoir (some gfp0) lip lgf ok).gfp =
      some (lame_configure gfp0 avctx reservoir) ∧
    (lame_configure gfp0 avctx reservoir).brate = 0 ∧
    (lame_configure gfp0 avctx reservoir).vbr = VbrMode.vbr_default := by
  refine ⟨?_, ?_, ?_⟩
  · unfold MP3lame_encode_init
    rw [if_neg hch]
    dsimp only
    by_cases h2 : lip (lame_configure gfp0 avctx reservoir) < 0
    · rw [if_pos h2]
    · rw [if_neg h2]
      cases ok <;> rfl
  · simp only [lame_configure, if_pos hq]
  · simp only [lame_configure, if_pos hq]

/-- Concrete encode environment for witnesses: a stereo session whose
external calls write a 4-byte output block and whose header parser declares
a 4-byte frame. -/
def envW : EncodeEnv :=
  ⟨2, 1152,
   fun _ _ _ => ⟨4, [255, 251, 144, 100]⟩,
   fun _ _ _ _ => ⟨4, [255, 251, 144, 100]⟩,
   fun _ => ⟨4, [255, 251, 144, 100]⟩,
   fun _ => some 4⟩

/-- Concrete encode environment whose external calls write only 2 bytes. -/
def envSmall : EncodeEnv :=
  ⟨2, 1152,
   fun _ _ _ => ⟨2, [255, 251]⟩,
   fun _ _ _ _ => ⟨2, [255, 251]⟩,
   fun _ => ⟨2, [255, 251]⟩,
   fun _ => some 4⟩

/-- Concrete encode environment whose external calls fail with -1 (the LAME
code for insufficient output space). -/
def envTooSmall : EncodeEnv :=
  ⟨2, 1152,
   fun _ _ _ => ⟨-1, []⟩,
   fun _ _ _ _ => ⟨-1, []⟩,
   fun _ => ⟨-1, []⟩,
   fun _ => some 4⟩

/-- Concrete default LAME flag state for witnesses. -/
def gfp0W : LameFlags :=
  ⟨0, 0, 0, 0, MpegMode.MONO, 0, VbrMode.vbr_off, 0, 0, 0⟩

theorem C1_witness :
    (initialState.buffer_index +
        (lame_call envW initialState none).result.toNat < 4 →
      (MP3lame_encode_frame envW initialState none 0).1 =
        EncodeOutcome.noFrame) ∧
    (4 ≤ initialState.buffer_index +
        (lame_call envW initialState none).result.toNat →
      (MP3lame_encode_frame envW initialState none 0).1 =
        EncodeOutcome.frame ((writeAt initialState.buffer
          initialState.buffer_index
          (lame_call envW initialState none).out).take 4) ∧
      ((writeAt initialState.buffer initialState.buffer_index
          (lame_call envW initialState none).out).take 4).length = 4) :=
  C1_frame_within_available envW initialState none 0 4
    (by simp [Mp3AudioContext.WF, initialState]) (by decide) (by decide)
    rfl (by decide)

theorem C2_witness :
    (MP3lame_encode_frame envW initialState none 0).1 =
      EncodeOutcome.frame (((writeAt initialState.buffer
        initialState.buffer_index
        (lame_call envW initialState none).out).take
        (initialState.buffer_index +
          (lame_call envW initialState none).result.toNat)).take 4) ∧
    (MP3lame_encode_frame envW initialState none 0).2.buffer.take
        ((MP3lame_encode_frame envW initialState none 0).2.buffer_index) =
      ((writeAt initialState.buffer initialState.buffer_index
        (lame_call envW initialState none).out).take
        (initialState.buffer_index +
          (lame_call envW initialState none).result.toNat)).drop 4 ∧
    (MP3lame_encode_frame envW initialState none 0).2.buffer_index + 4 =
      initialState.buffer_index +
        (lame_call envW initialState none).result.toNat :=
  C2_extraction_removes_consumed_bytes envW initialState none 0 4
    (by simp [Mp3AudioContext.WF, initialState]) (by decide) (by decide)
    rfl (by decide) (by decide)

theorem C3_witness :
    initialState.WF ∧
    ((MP3lame_encode_frame envW initialState none 0).2).WF :=
  C3_buffer_invariant envW initialState none 0
    (by simp [Mp3AudioContext.WF, initialState]) (by decide)

theorem C4_witness :
    (MP3lame_encode_frame envSmall initialState none 0).1 =
      EncodeOutcome.noFrame ∧
    ((MP3lame_encode_frame envSmall initialState none 0).1).retVal = 0 :=
  C4_under_four_bytes_no_error envSmall initialState none 0 (by decide)
    (by decide)

theorem C7_witness :
    ((lame_call envTooSmall initialState none).result = -1 →
      (MP3lame_encode_frame envTooSmall initialState none 0).1 =
        EncodeOutcome.err (EncodeError.OutputBufferTooSmall
          initialState.buffer_index
          (BUFFER_SIZE - initialState.buffer_index))) ∧
    ((lame_call envTooSmall initialState none).result ≠ -1 →
      (MP3lame_encode_frame envTooSmall initialState none 0).1 =
        EncodeOutcome.err EncodeError.EncodeFailure) ∧
    EncodeOutcome.err (EncodeError.OutputBufferTooSmall
        initialState.buffer_index
        (BUFFER_SIZE - initialState.buffer_index)) ≠
      EncodeOutcome.err EncodeError.EncodeFailure :=
  C7_negative_results_distinguished envTooSmall initialState none 0
    (by decide)

theorem C9_witness :
    (MP3lame_encode_frame envTooSmall initialState none 0).2.buffer_index =
      initialState.buffer_index ∧
    (MP3lame_encode_frame envTooSmall initialState none 0).2.buffer.take
        initialState.buffer_index =
      initialState.buffer.take initialState.buffer_index ∧
    ((MP3lame_encode_frame envTooSmall initialState none 0).1).retVal =
      -1 :=
  C9_error_leaves_state_unchanged envTooSmall initialState none 0
    (by simp [Mp3AudioContext.WF, initialState]) (by decide)

theorem C5_witness :
    (MP3lame_encode_init ⟨3, 44100, -1, 128000, 0, 0⟩ 1 none
      (fun _ => 0) (fun _ => 1152) true).ret = AVERROR_EINVAL ∧
    (MP3lame_encode_init ⟨3, 44100, -1, 128000, 0, 0⟩ 1 none
      (fun _ => 0) (fun _ => 1152) true).err =
      some InitError.UnsupportedChannelLayout ∧
    (MP3lame_encode_init ⟨3, 44100, -1, 128000, 0, 0⟩ 1 none
      (fun _ => 0) (fun _ => 1152) true).handleCreated = false :=
  C5_too_many_channels_rejected ⟨3, 44100, -1, 128000, 0, 0⟩ 1 none
    (fun _ => 0) (fun _ => 1152) true (by decide)

theorem C6_witness :
    (MP3lame_encode_init ⟨2, 44100, -1, 128000, 0, 0⟩ 1 (some gfp0W)
      (fun _ => -1) (fun _ => 1152) true).handleReleased = true :=
  C6_no_handle_leak_on_init_failure ⟨2, 44100, -1, 128000, 0, 0⟩ 1
    (some gfp0W) (fun _ => -1) (fun _ => 1152) true (by decide) (by decide)

theorem C8_witness :
    (MP3lame_encode_init ⟨2, 44100, -1, 128000, CODEC_FLAG_QSCALE, 472⟩ 1
      (some gfp0W) (fun _ => 0) (fun _ => 1152) true).gfp =
      some (lame_configure gfp0W
        ⟨2, 44100, -1, 128000, CODEC_FLAG_QSCALE, 472⟩ 1) ∧
    (lame_configure gfp0W
      ⟨2, 44100, -1, 128000, CODEC_FLAG_QSCALE, 472⟩ 1).brate = 0 ∧
    (lame_configure gfp0W
      ⟨2, 44100, -1, 128000, CODEC_FLAG_QSCALE, 472⟩ 1).vbr =
      VbrMode.vbr_default :=
  C8_qscale_overrides_bitrate
    ⟨2, 44100, -1, 128000, CODEC_FLAG_QSCALE, 472⟩ 1 gfp0W
    (fun _ => 0) (fun _ => 1152) true (by decide) (by decide)
